import Mathlib

/-!
Verification development for the `create_design_ideas` notebook: a shallow
embedding of its image-to-base64 conversion, Stable Diffusion request
assembly, and response decoding, with theorems checking the stated
contracts.

Bytes are modelled as natural numbers below 256 (`List Nat` with explicit
bounds where they matter).  Python strings are Lean `String`s.  The external
libraries the notebook calls (`base64`, `os.path`, `json`, PIL) are embedded
as executable Lean functions faithful to their documented behaviour on the
inputs the notebook produces.
-/

namespace DesignIdeas

/-! ## Base64 (model of Python `base64.b64encode` / `base64.decodebytes`) -/

/-- The standard base64 alphabet, in index order. -/
def b64Alphabet : List Char :=
  "ABCDEFGHIJKLMNOPQRSTUVWXYZabcdefghijklmnopqrstuvwxyz0123456789+/".data

/-- Character for a 6-bit group. -/
def b64Char (n : Nat) : Char := b64Alphabet.getD n 'A'

/-- Index of a base64 character in the alphabet (64 for a non-alphabet
character such as the padding char). -/
def b64CharIndex (c : Char) : Nat := b64Alphabet.indexOf c

/-- Model of `base64.b64encode`: bytes to base64 characters, three bytes per
four characters, padded with `=`. -/
def b64encodeBytes : List Nat → List Char
  | [] => []
  | [a] => [b64Char (a / 4), b64Char (a % 4 * 16), '=', '=']
  | [a, b] => [b64Char (a / 4), b64Char (a % 4 * 16 + b / 16), b64Char (b % 16 * 4), '=']
  | a :: b :: c :: rest =>
      b64Char (a / 4) :: b64Char (a % 4 * 16 + b / 16) ::
      b64Char (b % 16 * 4 + c / 64) :: b64Char (c % 64) ::
      b64encodeBytes rest

/-- Model of `base64.decodebytes` on well-formed input: four characters per
three bytes, with `=`-padding ending the stream. -/
def b64decodeChars : List Char → List Nat
  | c1 :: c2 :: c3 :: c4 :: rest =>
      if c3 = '=' then
        [b64CharIndex c1 * 4 + b64CharIndex c2 / 16]
      else if c4 = '=' then
        [b64CharIndex c1 * 4 + b64CharIndex c2 / 16,
         b64CharIndex c2 % 16 * 16 + b64CharIndex c3 / 4]
      else
        (b64CharIndex c1 * 4 + b64CharIndex c2 / 16) ::
        (b64CharIndex c2 % 16 * 16 + b64CharIndex c3 / 4) ::
        (b64CharIndex c3 % 4 * 64 + b64CharIndex c4) ::
        b64decodeChars rest
  | _ => []

theorem b64CharIndex_b64Char : ∀ k : Fin 64, b64CharIndex (b64Char k.val) = k.val := by
  decide

theorem b64Char_ne_pad : ∀ k : Fin 64, b64Char k.val ≠ '=' := by
  decide

theorem b64_roundtrip :
    ∀ bs : List Nat, (∀ b ∈ bs, b < 256) →
      b64decodeChars (b64encodeBytes bs) = bs
  | [], _ => rfl
  | [a], h => by
    have ha : a < 256 := h a (by simp)
    have h1 := b64CharIndex_b64Char ⟨a / 4, by omega⟩
    have h2 := b64CharIndex_b64Char ⟨a % 4 * 16, by omega⟩
    simp [b64encodeBytes, b64decodeChars, h1, h2]
    omega
  | [a, b], h => by
    have ha : a < 256 := h a (by simp)
    have hb : b < 256 := h b (by simp)
    have h1 := b64CharIndex_b64Char ⟨a / 4, by omega⟩
    have h2 := b64CharIndex_b64Char ⟨a % 4 * 16 + b / 16, by omega⟩
    have h3 := b64CharIndex_b64Char ⟨b % 16 * 4, by omega⟩
    have hne : b64Char (b % 16 * 4) ≠ '=' := b64Char_ne_pad ⟨b % 16 * 4, by omega⟩
    simp [b64encodeBytes, b64decodeChars, hne, h1, h2, h3]
    omega
  | a :: b :: c :: rest, h => by
    have ha : a < 256 := h a (by simp)
    have hb : b < 256 := h b (by simp)
    have hc : c < 256 := h c (by simp)
    have ih := b64_roundtrip rest (fun x hx => h x (by simp [hx]))
    have h1 := b64CharIndex_b64Char ⟨a / 4, by omega⟩
    have h2 := b64CharIndex_b64Char ⟨a % 4 * 16 + b / 16, by omega⟩
    have h3 := b64CharIndex_b64Char ⟨b % 16 * 4 + c / 64, by omega⟩
    have h4 := b64CharIndex_b64Char ⟨c % 64, by omega⟩
    have hne3 : b64Char (b % 16 * 4 + c / 64) ≠ '=' := b64Char_ne_pad ⟨b % 16 * 4 + c / 64, by omega⟩
    have hne4 : b64Char (c % 64) ≠ '=' := b64Char_ne_pad ⟨c % 64, by omega⟩
    simp [b64encodeBytes, b64decodeChars, hne3, hne4, ih, h1, h2, h3, h4]
    omega

/-! ## PIL image model

The notebook uses the external PIL library: `Image.Image` values, `resize`,
`save(..., format="PNG")` and `Image.open`.  A PIL image is modelled by its
dimensions and a pixel function; PNG serialization is modelled as the 8-byte
PNG signature followed by the dimensions and the raster data, which is
faithful in the one respect the theorems use: every PNG stream starts with
the fixed signature and records the image size. -/

structure PILImage where
  width : Nat
  height : Nat
  px : Nat → Nat → Nat

/-- The fixed 8-byte signature that begins every PNG stream. -/
def pngSignature : List Nat := [137, 80, 78, 71, 13, 10, 26, 10]

/-- Raster bytes of an image, row by row. -/
def rasterBytes (im : PILImage) : List Nat :=
  (List.range im.height).flatMap fun y =>
    (List.range im.width).map fun x => im.px x y % 256

/-- Model of `img.save(buffer, format="PNG")`: signature, dimensions
(little-endian 16-bit each), raster data. -/
def pngEncode (im : PILImage) : List Nat :=
  pngSignature ++
  [im.width % 256, im.width / 256 % 256, im.height % 256, im.height / 256 % 256] ++
  rasterBytes im

/-- Model of `image.resize((w, h))`: the result has the requested dimensions;
pixels are resampled from the source (the exact filter is irrelevant to the
contracts checked here and is modelled as nearest-neighbour). -/
def PILImage.resize (im : PILImage) (size : Nat × Nat) : PILImage :=
  { width := size.1
    height := size.2
    px := fun x y => im.px (x * im.width / size.1) (y * im.height / size.2) }

/-! ## Filesystem and Python-error model -/

/-- A filesystem entry: a regular file with contents, or a directory. -/
inductive FSEntry
  | file (contents : List Nat)
  | dir
deriving DecidableEq

/-- The filesystem visible to `os.path`, as a partial map from path strings
to entries. -/
structure FileSystem where
  entries : String → Option FSEntry

/-- Model of `os.path.isfile`: true only for an existing regular file
(false for a missing path and for a directory). -/
def os_path_isfile (fs : FileSystem) (p : String) : Bool :=
  match fs.entries p with
  | some (FSEntry.file _) => true
  | _ => false

/-- The Python exceptions the notebook's code paths can raise. -/
inductive PyError
  | fileNotFoundError (msg : String)
  | valueError (msg : String)
  | indexError (msg : String)
  | keyError (msg : String)
  | typeError (msg : String)
deriving DecidableEq

/-- The dynamically-typed argument of `image_to_base64`: a string, a PIL
image, or some other Python value (an integer or `None` stand in for
"anything else"). -/
inductive ImgArg
  | pyStr (s : String)
  | pyImage (im : PILImage)
  | pyInt (n : Int)
  | pyNone

/-- Python type name of an argument, as used in the `ValueError` message. -/
def ImgArg.typeName : ImgArg → String
  | .pyStr _ => "str"
  | .pyImage _ => "Image"
  | .pyInt _ => "int"
  | .pyNone => "NoneType"

/-- Shallow embedding of the notebook's `image_to_base64`:

* a `str` argument is treated as a path: if `os.path.isfile` holds, the raw
  file bytes are read and base64-encoded; otherwise `FileNotFoundError`;
* a PIL image is saved as PNG into a buffer and the buffer is
  base64-encoded;
* anything else raises `ValueError`. -/
def image_to_base64 (fs : FileSystem) : ImgArg → Except PyError String
  | .pyStr p =>
      match fs.entries p with
      | some (FSEntry.file contents) => .ok (String.mk (b64encodeBytes contents))
      | _ => .error (.fileNotFoundError ("File " ++ p ++ " does not exist"))
  | .pyImage im => .ok (String.mk (b64encodeBytes (pngEncode im)))
  | other => .error (.valueError ("Expected str (filename) or PIL Image. Got " ++ other.typeName))

theorem image_to_base64_file (fs : FileSystem) (p : String) (contents : List Nat)
    (h : fs.entries p = some (FSEntry.file contents)) :
    image_to_base64 fs (.pyStr p) = .ok (String.mk (b64encodeBytes contents)) := by
  simp [image_to_base64, h]

theorem image_to_base64_missing (fs : FileSystem) (p : String)
    (h : os_path_isfile fs p = false) :
    image_to_base64 fs (.pyStr p) =
      .error (.fileNotFoundError ("File " ++ p ++ " does not exist")) := by
  unfold os_path_isfile at h
  match he : fs.entries p with
  | some (FSEntry.file c) => rw [he] at h; simp at h
  | some FSEntry.dir => simp [image_to_base64, he]
  | none => simp [image_to_base64, he]

/-! ## Request assembly

The notebook builds `sd_request = json.dumps({...})` from the positive
prompt, the negative prompts and fixed inference parameters.  Python values
inside the dict are embedded as `PyObj`; all weights and parameters in the
notebook (1.0, -1.0, 10, 0, 0.5, 30) are exactly representable and are
modelled as rationals. -/

/-- A prompt term: text plus signed weight. -/
structure PromptTerm where
  text : String
  weight : Rat
deriving DecidableEq

/-- The notebook's positive prompt. -/
def change_prompt : String := "add floral prints to dress"

/-- The notebook's negative prompts, in source order. -/
def negative_prompts : List String :=
  ["poorly rendered", "low quality", "disfigured", "disproportional"]

/-- The `text_prompts` list of the request:
`[{"text": change_prompt, "weight": 1.0}] + [{"text": negprompt, "weight": -1.0} for negprompt in negative_prompts]`. -/
def textPrompts (prompt : String) (negPrompts : List String) : List PromptTerm :=
  [{ text := prompt, weight := 1 }] ++
    negPrompts.map fun negprompt => { text := negprompt, weight := -1 }

/-- A Python value that can appear in the request dict.  `pyBytes` stands
for a value `json.dumps` rejects (bytes are not JSON serializable). -/
inductive PyObj
  | pyStr (s : String)
  | pyRat (q : Rat)
  | pyInt (n : Int)
  | pyBool (b : Bool)
  | pyNone
  | pyBytes (bs : List Nat)
  | pyList (xs : List PyObj)
  | pyDict (fields : List (String × PyObj))

/-- JSON string quoting (escaping of special characters elided; no prompt in
the notebook contains any). -/
def jsonQuote (s : String) : String := "\"" ++ s ++ "\""

/-- Decimal rendering of a JSON number (exact for the integers and halves
the notebook uses). -/
def jsonNum (q : Rat) : String :=
  if q.den = 1 then toString q.num
  else toString (q * 2).num ++ " / 2"

/-- Comma-join of already-serialized parts. -/
def joinComma : List String → String
  | [] => ""
  | [s] => s
  | s :: rest => s ++ ", " ++ joinComma rest

mutual

/-- Model of `json.dumps`: total on serializable values, `TypeError` on a
non-serializable one (`pyBytes`). -/
def json_dumps : PyObj → Except PyError String
  | .pyStr s => .ok (jsonQuote s)
  | .pyRat q => .ok (jsonNum q)
  | .pyInt n => .ok (toString n)
  | .pyBool b => .ok (if b then "true" else "false")
  | .pyNone => .ok "null"
  | .pyBytes _ => .error (.typeError "Object of type bytes is not JSON serializable")
  | .pyList xs => do
      let parts ← json_dumpsList xs
      .ok ("[" ++ joinComma parts ++ "]")
  | .pyDict fields => do
      let parts ← json_dumpsFields fields
      .ok ("\x7b" ++ joinComma parts ++ "\x7d")

def json_dumpsList : List PyObj → Except PyError (List String)
  | [] => .ok []
  | x :: xs => do
      let s ← json_dumps x
      let rest ← json_dumpsList xs
      .ok (s :: rest)

def json_dumpsFields : List (String × PyObj) → Except PyError (List String)
  | [] => .ok []
  | (k, v) :: rest => do
      let s ← json_dumps v
      let tailParts ← json_dumpsFields rest
      .ok ((jsonQuote k ++ ": " ++ s) :: tailParts)

end

/-- A prompt term as the dict `{"text": ..., "weight": ...}`. -/
def promptTermObj (t : PromptTerm) : PyObj :=
  .pyDict [("text", .pyStr t.text), ("weight", .pyRat t.weight)]

/-- The fields of the request dict, in source order. -/
def sdRequestFields (prompt : String) (negPrompts : List String)
    (init_image_b64 : String) : List (String × PyObj) :=
  [("text_prompts", .pyList ((textPrompts prompt negPrompts).map promptTermObj)),
   ("cfg_scale", .pyInt 10),
   ("init_image", .pyStr init_image_b64),
   ("seed", .pyInt 0),
   ("start_schedule", .pyRat (1 / 2)),
   ("steps", .pyInt 30),
   ("style_preset", .pyStr "photographic"),
   ("image_strength", .pyRat (1 / 2)),
   ("denoising_strength", .pyRat (1 / 2))]

/-- The notebook's `sd_request` assembly:
`json.dumps({"text_prompts": ..., "cfg_scale": 10, ...})` as a function of
the prompt inputs and the init image string. -/
def sd_request (prompt : String) (negPrompts : List String)
    (init_image_b64 : String) : Except PyError String :=
  json_dumps (.pyDict (sdRequestFields prompt negPrompts init_image_b64))

/-- Serialized form of one prompt term. -/
def promptTermStr (t : PromptTerm) : String :=
  "\x7b" ++ (jsonQuote "text" ++ ": " ++ jsonQuote t.text ++ ", " ++
    (jsonQuote "weight" ++ ": " ++ jsonNum t.weight)) ++ "\x7d"

theorem json_dumps_promptTermObj (t : PromptTerm) :
    json_dumps (promptTermObj t) = .ok (promptTermStr t) := by
  simp [promptTermObj, promptTermStr, json_dumps, json_dumpsFields, joinComma,
    Bind.bind, Except.bind]

theorem json_dumpsList_promptTerms (ts : List PromptTerm) :
    json_dumpsList (ts.map promptTermObj) = .ok (ts.map promptTermStr) := by
  induction ts with
  | nil => rfl
  | cons t ts ih =>
    simp [json_dumpsList, json_dumps_promptTermObj, ih, Bind.bind, Except.bind]

/-! ## Response decoding

The render cell runs
`genimage_b64_str = response_body["artifacts"][0].get("base64")` and then
`genimage = Image.open(io.BytesIO(base64.decodebytes(bytes(genimage_b64_str, "utf-8"))))`.
An artifact is a JSON object whose string-valued fields include (for a
well-formed response) a `"base64"` key; the response body carries a list of
artifacts. -/

/-- One artifact of the response: a JSON object with string fields. -/
structure SDArtifact where
  fields : List (String × String)
deriving DecidableEq

/-- Model of Python `dict.get k`: `None` when the key is absent, never a
`KeyError`. -/
def dictGet (fields : List (String × String)) (k : String) : Option String :=
  fields.lookup k

/-- The parsed response body (`json.loads` of the returned stream). -/
structure SDResponse where
  artifacts : List SDArtifact
deriving DecidableEq

/-- Model of `Image.open` on a byte stream: recognizes the PNG layout
produced by `pngEncode` and reconstructs the image; any other stream is
rejected (`cannot identify image file`). -/
def imageOpen (bs : List Nat) : Except PyError PILImage :=
  match bs with
  | 137 :: 80 :: 78 :: 71 :: 13 :: 10 :: 26 :: 10 :: w0 :: w1 :: h0 :: h1 :: rest =>
      .ok { width := w0 + w1 * 256
            height := h0 + h1 * 256
            px := fun x y => rest.getD (y * (w0 + w1 * 256) + x) 0 }
  | _ => .error (.valueError "cannot identify image file")

/-- Shallow embedding of the render cell: index the artifacts list at 0
(`IndexError` when empty), `.get("base64")` on the artifact (absent key
gives `None`, and `bytes(None, "utf-8")` then raises `TypeError`), base64
decoding, and `Image.open`. -/
def decode_response (r : SDResponse) : Except PyError PILImage :=
  match r.artifacts[0]? with
  | none => .error (.indexError "list index out of range")
  | some art =>
      match dictGet art.fields "base64" with
      | none => .error (.typeError "encoding without a string argument")
      | some genimage_b64_str =>
          imageOpen (b64decodeChars genimage_b64_str.data)

/-! ## Concrete fixtures used by witnesses and counterexamples -/

/-- A filesystem holding one regular file, `fabric.bin`, whose three raw
bytes are not a PNG stream. -/
def fsBin : FileSystem :=
  ⟨fun p => if p = "fabric.bin" then some (FSEntry.file [1, 2, 3]) else none⟩

/-- A filesystem holding one directory, `images`. -/
def fsDir : FileSystem :=
  ⟨fun p => if p = "images" then some FSEntry.dir else none⟩

/-- A small concrete PIL image. -/
def demoImage : PILImage := ⟨1, 1, fun _ _ => 0⟩

/-- Head character of the encoding of a non-empty byte list. -/
theorem b64encodeBytes_head (a : Nat) (l : List Nat) :
    ∃ t, b64encodeBytes (a :: l) = b64Char (a / 4) :: t := by
  match l with
  | [] => exact ⟨_, rfl⟩
  | [b] => exact ⟨_, rfl⟩
  | b :: c :: rest => exact ⟨_, rfl⟩

/-! ## Claims -/

/-- C1: for the notebook's positive prompt "add floral prints to dress" and
its four negative prompts, the request's `text_prompts` list has exactly 5
entries, headed by the positive term with weight 1.0 and followed by the
negative terms with weight -1.0 in input order; and in general, for every
positive prompt `p` and list `ns` of negative prompts, assembly yields the
term list of length `ns.length + 1` with head `(p, 1.0)` and tail
`(ns[i], -1.0)` in input order. -/
theorem C1_text_prompts :
    (textPrompts change_prompt negative_prompts).length = 5 ∧
    textPrompts change_prompt negative_prompts =
      [{ text := "add floral prints to dress", weight := 1 },
       { text := "poorly rendered", weight := -1 },
       { text := "low quality", weight := -1 },
       { text := "disfigured", weight := -1 },
       { text := "disproportional", weight := -1 }] ∧
    (∀ b, List.lookup "text_prompts" (sdRequestFields change_prompt negative_prompts b) =
       some (.pyList ((textPrompts change_prompt negative_prompts).map promptTermObj))) ∧
    ∀ (p : String) (ns : List String),
      (textPrompts p ns).length = ns.length + 1 ∧
      textPrompts p ns =
        { text := p, weight := 1 } :: ns.map fun s => { text := s, weight := -1 } := by
  refine ⟨rfl, rfl, fun b => rfl, fun p ns => ⟨?_, rfl⟩⟩
  simp [textPrompts]

/-- C2 counterexample: for the existing file `fabric.bin` with raw contents
`[1, 2, 3]`, the conversion's output is not the base64 encoding of the PNG
encoding of any 512×512 image (the file branch encodes the raw bytes, which
do not even start with the PNG signature). -/
theorem C2_counterexample :
    ¬ ∃ im : PILImage, im.width = 512 ∧ im.height = 512 ∧
        image_to_base64 fsBin (.pyStr "fabric.bin") =
          .ok (String.mk (b64encodeBytes (pngEncode im))) := by
  rintro ⟨im, -, -, heq⟩
  have hfile : image_to_base64 fsBin (.pyStr "fabric.bin") =
      .ok (String.mk (b64encodeBytes [1, 2, 3])) := rfl
  rw [hfile] at heq
  have hlists : b64encodeBytes [1, 2, 3] = b64encodeBytes (pngEncode im) := by
    have := Except.ok.inj heq
    exact congrArg String.data this
  have hpng : ∃ t, pngEncode im = 137 :: t := ⟨_, rfl⟩
  obtain ⟨t, ht⟩ := hpng
  obtain ⟨t2, ht2⟩ := b64encodeBytes_head 137 t
  rw [ht, ht2] at hlists
  have hhead : b64Char (1 / 4) = b64Char (137 / 4) := by
    have h3 : b64encodeBytes [1, 2, 3] = b64Char (1 / 4) ::
        (b64encodeBytes [1, 2, 3]).tail := rfl
    rw [h3] at hlists
    exact (List.cons.inj hlists).1
  exact absurd hhead (by decide)

/-- C2 amended: the decoded-image branch returns the base64 encoding of the
PNG encoding of the image exactly as given — in the notebook flow a 512×512
copy, since `resize((512, 512))` is applied before the call and forces those
dimensions — while the file-path branch returns the base64 encoding of the
file's raw contents, with no resizing or PNG re-encoding. -/
theorem C2_branches (fs : FileSystem) (im : PILImage) (p : String) (contents : List Nat)
    (h : fs.entries p = some (FSEntry.file contents)) :
    image_to_base64 fs (.pyImage im) = .ok (String.mk (b64encodeBytes (pngEncode im))) ∧
    ((im.resize (512, 512)).width = 512 ∧ (im.resize (512, 512)).height = 512) ∧
    image_to_base64 fs (.pyStr p) = .ok (String.mk (b64encodeBytes contents)) :=
  ⟨rfl, ⟨rfl, rfl⟩, image_to_base64_file fs p contents h⟩

theorem C2_branches_witness :
    image_to_base64 fsBin (.pyImage demoImage) =
      .ok (String.mk (b64encodeBytes (pngEncode demoImage))) ∧
    ((demoImage.resize (512, 512)).width = 512 ∧
     (demoImage.resize (512, 512)).height = 512) ∧
    image_to_base64 fsBin (.pyStr "fabric.bin") =
      .ok (String.mk (b64encodeBytes [1, 2, 3])) :=
  C2_branches fsBin demoImage "fabric.bin" [1, 2, 3] (by simp [fsBin])

/-- C3: for every path naming an existing regular file, the conversion
succeeds and base64-decoding its output recovers exactly the file's
contents. -/
theorem C3_roundtrip (fs : FileSystem) (p : String) (contents : List Nat)
    (hf : fs.entries p = some (FSEntry.file contents))
    (hb : ∀ b ∈ contents, b < 256) :
    ∃ s, image_to_base64 fs (.pyStr p) = .ok s ∧ b64decodeChars s.data = contents :=
  ⟨String.mk (b64encodeBytes contents), image_to_base64_file fs p contents hf,
   b64_roundtrip contents hb⟩

theorem C3_roundtrip_witness :
    ∃ s, image_to_base64 fsBin (.pyStr "fabric.bin") = .ok s ∧
      b64decodeChars s.data = [1, 2, 3] :=
  C3_roundtrip fsBin "fabric.bin" [1, 2, 3] (by simp [fsBin]) (by decide)

/-- C4: for every response whose artifacts list is empty, decoding fails
with the `IndexError` from the `[0]` subscript and returns no image; no
fallback artifact is substituted. -/
theorem C4_empty_artifacts (r : SDResponse) (h : r.artifacts = []) :
    decode_response r = .error (.indexError "list index out of range") := by
  simp [decode_response, h]

theorem C4_empty_artifacts_witness :
    decode_response ⟨[]⟩ = .error (.indexError "list index out of range") :=
  C4_empty_artifacts ⟨[]⟩ rfl

/-- C5: for every string input that does not name an existing regular file,
the conversion raises `FileNotFoundError` and returns no value. -/
theorem C5_not_found (fs : FileSystem) (p : String)
    (h : os_path_isfile fs p = false) :
    image_to_base64 fs (.pyStr p) =
      .error (.fileNotFoundError ("File " ++ p ++ " does not exist")) :=
  image_to_base64_missing fs p h

theorem C5_not_found_witness :
    image_to_base64 fsBin (.pyStr "missing.png") =
      .error (.fileNotFoundError ("File " ++ "missing.png" ++ " does not exist")) :=
  C5_not_found fsBin "missing.png" (by decide)

/-- C6: for every input that is neither a string path nor a PIL image
(e.g., an integer), the conversion raises the `ValueError` naming the
offending type and returns no value. -/
theorem C6_wrong_type (fs : FileSystem) (arg : ImgArg)
    (hs : ∀ s, arg ≠ .pyStr s) (hi : ∀ im, arg ≠ .pyImage im) :
    image_to_base64 fs arg =
      .error (.valueError ("Expected str (filename) or PIL Image. Got " ++ arg.typeName)) := by
  cases arg with
  | pyStr s => exact absurd rfl (hs s)
  | pyImage im => exact absurd rfl (hi im)
  | pyInt n => rfl
  | pyNone => rfl

theorem C6_wrong_type_witness :
    image_to_base64 fsBin (.pyInt 7) =
      .error (.valueError ("Expected str (filename) or PIL Image. Got " ++
        (ImgArg.pyInt 7).typeName)) :=
  C6_wrong_type fsBin (.pyInt 7) (fun _ h => ImgArg.noConfusion h)
    (fun _ h => ImgArg.noConfusion h)

/-- C7: decoding reads only the first artifact: two responses whose first
artifacts carry the same `base64` field decode identically, whatever the
number and contents of the remaining artifacts. -/
theorem C7_first_artifact_only (r1 r2 : SDResponse) (a1 a2 : SDArtifact)
    (h1 : r1.artifacts[0]? = some a1) (h2 : r2.artifacts[0]? = some a2)
    (hb : dictGet a1.fields "base64" = dictGet a2.fields "base64") :
    decode_response r1 = decode_response r2 := by
  simp only [decode_response, h1, h2, hb]

/-- Response fixtures for C7: same first-artifact `base64`, different other
fields and different tails. -/
def respA : SDResponse := ⟨[⟨[("base64", "QUJD")]⟩]⟩

def respB : SDResponse :=
  ⟨[⟨[("base64", "QUJD"), ("finishReason", "SUCCESS")]⟩, ⟨[("base64", "zzzz")]⟩]⟩

theorem C7_first_artifact_only_witness :
    decode_response respA = decode_response respB :=
  C7_first_artifact_only respA respB ⟨[("base64", "QUJD")]⟩
    ⟨[("base64", "QUJD"), ("finishReason", "SUCCESS")]⟩ (by decide) (by decide) (by decide)

/-- C8: request assembly is total and pure — for every positive prompt,
negative-prompt list and init-image string, `json.dumps` of the assembled
dict succeeds (no value in it is unserializable), returning the serialized
body; as a Lean function it is deterministic by construction. -/
theorem C8_total (prompt : String) (negPrompts : List String) (init_image_b64 : String) :
    ∃ s, sd_request prompt negPrompts init_image_b64 = .ok s := by
  unfold sd_request sdRequestFields
  simp only [json_dumps, json_dumpsFields, json_dumpsList_promptTerms,
    Bind.bind, Except.bind]
  exact ⟨_, rfl⟩

/-- C9: a path that exists but names a directory rather than a regular file
takes the `FileNotFoundError` branch (because `os.path.isfile` tests for a
regular file only), not the wrong-type `ValueError` branch. -/
theorem C9_directory (fs : FileSystem) (p : String)
    (h : fs.entries p = some FSEntry.dir) :
    image_to_base64 fs (.pyStr p) =
      .error (.fileNotFoundError ("File " ++ p ++ " does not exist")) ∧
    ∀ msg, image_to_base64 fs (.pyStr p) ≠ .error (.valueError msg) := by
  have hmain : image_to_base64 fs (.pyStr p) =
      .error (.fileNotFoundError ("File " ++ p ++ " does not exist")) := by
    simp [image_to_base64, h]
  exact ⟨hmain, fun msg hcontra => by rw [hmain] at hcontra; simp at hcontra⟩

theorem C9_directory_witness :
    image_to_base64 fsDir (.pyStr "images") =
      .error (.fileNotFoundError ("File " ++ "images" ++ " does not exist")) ∧
    ∀ msg, image_to_base64 fsDir (.pyStr "images") ≠ .error (.valueError msg) :=
  C9_directory fsDir "images" (by simp [fsDir])

/-- C10: when the artifacts list is non-empty but its first artifact lacks
the `base64` key, extraction itself does not raise (`dict.get` yields
`None`); decoding fails afterwards, at `bytes(None, "utf-8")`, with a
`TypeError` — not a `KeyError` or `IndexError`. -/
theorem C10_missing_base64 (r : SDResponse) (a : SDArtifact)
    (h0 : r.artifacts[0]? = some a) (hk : dictGet a.fields "base64" = none) :
    decode_response r = .error (.typeError "encoding without a string argument") ∧
    (∀ msg, decode_response r ≠ .error (.keyError msg)) ∧
    (∀ msg, decode_response r ≠ .error (.indexError msg)) := by
  have hmain : decode_response r = .error (.typeError "encoding without a string argument") := by
    simp only [decode_response, h0, hk]
  refine ⟨hmain, fun msg hc => ?_, fun msg hc => ?_⟩
  · rw [hmain] at hc; simp at hc
  · rw [hmain] at hc; simp at hc

/-- Response fixture for C10: one artifact without a `base64` key. -/
def respNoB64 : SDResponse := ⟨[⟨[("finishReason", "CONTENT_FILTERED")]⟩]⟩

theorem C10_missing_base64_witness :
    decode_response respNoB64 = .error (.typeError "encoding without a string argument") ∧
    (∀ msg, decode_response respNoB64 ≠ .error (.keyError msg)) ∧
    (∀ msg, decode_response respNoB64 ≠ .error (.indexError msg)) :=
  C10_missing_base64 respNoB64 ⟨[("finishReason", "CONTENT_FILTERED")]⟩
    (by decide) (by decide)

end DesignIdeas
